import Mathlib

/-!
# Verification of the vulnscan ingestion pipeline

Shallow embedding of the Go repository `Chinzzii/vulnscan`:
a bounded concurrent ingestion pipeline (handlers/scan.go and its
retrying variant), the GitHub content fetcher (github/client.go),
the JSON data model (models/model.go) and the read-path query
handler (handlers/query.go).

Conventions of the embedding:
* Go errors are `Option String` / `Except String` carrying the error text
  built by the same `fmt.Errorf` format strings as the source.
* The storage engine is a list of rows; a transaction accumulates pending
  rows that are appended on commit and discarded on rollback, which is the
  contract of the `Beginx`/`Commit`/`Rollback` bracket the code uses.
* Fallible SQL statements are driven by an oracle (`TxEngine`) giving the
  outcome of the n-th `Exec` / `LastInsertId` call of the transaction,
  so every failure point of the source is representable.
* Concurrency (goroutines gated by the capacity-3 semaphore channel) is
  modelled by a step relation on task states, and the nondeterministic
  completion order of goroutines by quantifying over permutations of the
  input file list.
* `time.Time` values are carried as their RFC3339 text; `float64` scores
  as `Rat`. No claim below depends on time parsing or float rounding.
-/

/-! ## Data model (models/model.go) -/

/-- `RiskFactors []string` from models/model.go. -/
abbrev RiskFactors := List String

/-- `Vulnerability` struct from models/model.go (json tags in comments). -/
structure Vulnerability where
  cveID : String            -- json "id"
  severity : String         -- json "severity"
  cvss : Rat                -- json "cvss" (float64 in Go)
  status : String           -- json "status"
  packageName : String      -- json "package_name"
  currentVersion : String   -- json "current_version"
  fixedVersion : String     -- json "fixed_version"
  description : String      -- json "description"
  publishedDate : String    -- json "published_date" (time.Time, kept as text)
  link : String             -- json "link"
  riskFactors : RiskFactors -- json "risk_factors"
  deriving DecidableEq, Repr

/-- `ScanResult` struct from models/model.go. -/
structure ScanResult where
  scanID : String           -- json "scan_id"
  timestamp : String        -- json "timestamp" (time.Time, kept as text)
  scanStatus : String       -- json "scan_status"
  resourceType : String     -- json "resource_type"
  resourceName : String     -- json "resource_name"
  vulnerabilities : List Vulnerability -- json "vulnerabilities"
  deriving DecidableEq, Repr

/-- `ScanFile` struct from models/model.go: the root JSON structure. -/
structure ScanFile where
  scanResults : ScanResult  -- json "scanResults"
  deriving DecidableEq, Repr

/-- Go zero value of `Vulnerability`. -/
def Vulnerability.zero : Vulnerability :=
  ⟨"", "", 0, "", "", "", "", "", "", "", []⟩

/-- Go zero value of `ScanResult` (nil slice read as the empty list). -/
def ScanResult.zero : ScanResult := ⟨"", "", "", "", "", []⟩

/-- Go zero value of `ScanFile`. -/
def ScanFile.zero : ScanFile := ⟨ScanResult.zero⟩

/-! ## Request / response shapes (handlers/scan.go) -/

/-- `ScanRequest` from handlers/scan.go. -/
structure ScanRequest where
  repo : String
  files : List String
  deriving DecidableEq, Repr

/-- `FileError` from handlers/scan.go. -/
structure FileError where
  file : String
  error : String
  deriving DecidableEq, Repr

/-- `ScanResponse` from handlers/scan.go. -/
structure ScanResponse where
  success : List String
  failed : List FileError
  deriving DecidableEq, Repr

/-! ## Result aggregation

Each goroutine of `ScanHandler` appends its file name to exactly one of
the two mutex-protected lists, in completion order.  A run of the handler
is therefore described by the list `results` of `(file, outcome)` pairs in
completion order, where the outcome is `none` on success and `some err`
when `processFile` returned the error text `err`.  The semaphore and the
`WaitGroup` guarantee that `results.map Prod.fst` is a permutation of
`req.Files` (every spawned goroutine runs to completion exactly once). -/

/-- The `success` list accumulated by the goroutines of `ScanHandler`,
in completion order. -/
def collectSuccess (results : List (String × Option String)) : List String :=
  results.filterMap fun r =>
    match r.2 with
    | none => some r.1
    | some _ => none

/-- The `failed` list accumulated by the goroutines of `ScanHandler`,
in completion order. -/
def collectFailed (results : List (String × Option String)) : List FileError :=
  results.filterMap fun r =>
    match r.2 with
    | none => none
    | some e => some ⟨r.1, e⟩

/-- The `ScanResponse` encoded by `ScanHandler` after `wg.Wait()`. -/
def scanReport (results : List (String × Option String)) : ScanResponse :=
  ⟨collectSuccess results, collectFailed results⟩

/-! ## JSON values and Go `encoding/json` decoding

`processFile` runs `json.Unmarshal(content, &scanFiles)` with
`scanFiles : []models.ScanFile`.  We model the byte content as either a
syntactically valid JSON value or a malformed byte sequence carrying its
syntax-error text, and reproduce Go decoding semantics: a slice decodes
from a JSON array (or `null`, yielding the nil slice); a struct decodes
from a JSON object (unknown keys ignored, missing keys left at the zero
value, a repeated key keeping its last occurrence) or from `null`; any
other shape is a type-mismatch error.  The exact Go error text is kept
for the top-level slice mismatch, which is the one the claims exercise;
nested error texts are abbreviated. -/

inductive JsonValue where
  | null
  | bool (b : Bool)
  | num (q : Rat)
  | str (s : String)
  | arr (elems : List JsonValue)
  | obj (fields : List (String × JsonValue))

/-- The value-kind word Go uses in `json: cannot unmarshal <kind> ...`. -/
def jsonKindName : JsonValue → String
  | .null => "null"
  | .bool _ => "bool"
  | .num _ => "number"
  | .str _ => "string"
  | .arr _ => "array"
  | .obj _ => "object"

/-- Last binding of `key` in an object's field list (Go applies keys in
order, so a repeated key keeps its last occurrence). -/
def lastField (fields : List (String × JsonValue)) (key : String) :
    Option JsonValue :=
  fields.foldl (fun acc p => if p.1 == key then some p.2 else acc) none

/-- Decode a JSON value into a Go `string` field. -/
def decodeGoString (j : JsonValue) : Except String String :=
  match j with
  | .str s => .ok s
  | .null => .ok ""
  | j => .error ("json: cannot unmarshal " ++ jsonKindName j
      ++ " into Go value of type string")

/-- Decode a JSON value into a Go `float64` field (carried as `Rat`). -/
def decodeGoNumber (j : JsonValue) : Except String Rat :=
  match j with
  | .num q => .ok q
  | .null => .ok 0
  | j => .error ("json: cannot unmarshal " ++ jsonKindName j
      ++ " into Go value of type float64")

/-- Decode a JSON value into `RiskFactors` (`[]string`). -/
def decodeRiskFactors (j : JsonValue) : Except String RiskFactors :=
  match j with
  | .null => .ok []
  | .arr xs => xs.mapM decodeGoString
  | j => .error ("json: cannot unmarshal " ++ jsonKindName j
      ++ " into Go value of type models.RiskFactors")

/-- Decode one field of a struct: absent keys keep the zero value. -/
def decodeFieldD {α : Type} (fields : List (String × JsonValue)) (key : String)
    (dflt : α) (dec : JsonValue → Except String α) : Except String α :=
  match lastField fields key with
  | none => .ok dflt
  | some j => dec j

/-- Decode a JSON value into a `models.Vulnerability`. -/
def decodeVulnerability (j : JsonValue) : Except String Vulnerability :=
  match j with
  | .null => .ok Vulnerability.zero
  | .obj fields => do
    let cveID ← decodeFieldD fields "id" "" decodeGoString
    let severity ← decodeFieldD fields "severity" "" decodeGoString
    let cvss ← decodeFieldD fields "cvss" 0 decodeGoNumber
    let status ← decodeFieldD fields "status" "" decodeGoString
    let packageName ← decodeFieldD fields "package_name" "" decodeGoString
    let currentVersion ← decodeFieldD fields "current_version" "" decodeGoString
    let fixedVersion ← decodeFieldD fields "fixed_version" "" decodeGoString
    let description ← decodeFieldD fields "description" "" decodeGoString
    let publishedDate ← decodeFieldD fields "published_date" "" decodeGoString
    let link ← decodeFieldD fields "link" "" decodeGoString
    let riskFactors ← decodeFieldD fields "risk_factors" [] decodeRiskFactors
    .ok ⟨cveID, severity, cvss, status, packageName, currentVersion,
      fixedVersion, description, publishedDate, link, riskFactors⟩
  | j => .error ("json: cannot unmarshal " ++ jsonKindName j
      ++ " into Go value of type models.Vulnerability")

/-- Decode a JSON value into `[]models.Vulnerability`. -/
def decodeVulnList (j : JsonValue) : Except String (List Vulnerability) :=
  match j with
  | .null => .ok []
  | .arr xs => xs.mapM decodeVulnerability
  | j => .error ("json: cannot unmarshal " ++ jsonKindName j
      ++ " into Go value of type []models.Vulnerability")

/-- Decode a JSON value into a `models.ScanResult`. -/
def decodeScanResult (j : JsonValue) : Except String ScanResult :=
  match j with
  | .null => .ok ScanResult.zero
  | .obj fields => do
    let scanID ← decodeFieldD fields "scan_id" "" decodeGoString
    let timestamp ← decodeFieldD fields "timestamp" "" decodeGoString
    let scanStatus ← decodeFieldD fields "scan_status" "" decodeGoString
    let resourceType ← decodeFieldD fields "resource_type" "" decodeGoString
    let resourceName ← decodeFieldD fields "resource_name" "" decodeGoString
    let vulnerabilities ← decodeFieldD fields "vulnerabilities" [] decodeVulnList
    .ok ⟨scanID, timestamp, scanStatus, resourceType, resourceName,
      vulnerabilities⟩
  | j => .error ("json: cannot unmarshal " ++ jsonKindName j
      ++ " into Go value of type models.ScanResult")

/-- Decode a JSON value into a `models.ScanFile`. -/
def decodeScanFile (j : JsonValue) : Except String ScanFile :=
  match j with
  | .null => .ok ScanFile.zero
  | .obj fields => do
    let sr ← decodeFieldD fields "scanResults" ScanResult.zero decodeScanResult
    .ok ⟨sr⟩
  | j => .error ("json: cannot unmarshal " ++ jsonKindName j
      ++ " into Go value of type models.ScanFile")

/-- `json.Unmarshal(content, &scanFiles)` with
`scanFiles : []models.ScanFile`: the top level must be an array (or
`null`, giving the nil slice); a top-level object is a type mismatch. -/
def unmarshalScanFiles (j : JsonValue) : Except String (List ScanFile) :=
  match j with
  | .null => .ok []
  | .arr xs => xs.mapM decodeScanFile
  | j => .error ("json: cannot unmarshal " ++ jsonKindName j
      ++ " into Go value of type []models.ScanFile")

/-- The raw bytes returned by the fetch step: either valid JSON text with
the given value, or malformed text failing JSON scanning with the given
syntax-error message. -/
inductive RawContent where
  | json (v : JsonValue)
  | malformed (msg : String)

/-- The full parse step of `processFile`: malformed bytes fail with the
scanner's message, well-formed bytes are decoded into `[]models.ScanFile`. -/
def parseScanFiles (content : RawContent) : Except String (List ScanFile) :=
  match content with
  | .malformed msg => .error msg
  | .json v => unmarshalScanFiles v

/-! ## Storage rows and the transactional writer

The store is a list of rows; a `Beginx`/`Commit`/`Rollback` bracket
accumulates pending inserts that are appended on commit and discarded on
rollback.  The outcome of each fallible SQL call is supplied by an oracle
`TxEngine`: `execErr n` is the error (if any) of the n-th `Exec` of the
transaction body, and `keyResult k` is the `LastInsertId` outcome after
the k-th scan insert. -/

inductive Row where
  | scanRow (repo filePath scanTime scanID timestamp : String) (key : Nat)
  | vulnRow (scanKey : Nat) (vuln : Vulnerability)
  deriving DecidableEq, Repr

/-- Outcome oracle for the storage engine within one transaction. -/
structure TxEngine where
  execErr : Nat → Option String
  keyResult : Nat → Except String Nat

/-- The inner loop of `processFile` over `sr.Vulnerabilities`:
`tx.Exec("INSERT INTO vulnerabilities ...")` per finding, aborting with
`insert vulnerability failed: <e>` on the first failure. -/
def writeVulns (eng : TxEngine) (scanKey : Nat) :
    List Vulnerability → Nat → List Row → Except String (Nat × List Row)
  | [], cnt, pending => .ok (cnt, pending)
  | v :: rest, cnt, pending =>
    match eng.execErr cnt with
    | some e => .error ("insert vulnerability failed: " ++ e)
    | none => writeVulns eng scanKey rest (cnt + 1)
        (pending ++ [Row.vulnRow scanKey v])

/-- The transaction body of `processFile`: for each `ScanFile`, insert a
scan row, read its generated key, then insert one row per finding. -/
def writeScanFiles (eng : TxEngine) (repo filePath scanTime : String) :
    List ScanFile → Nat → Nat → List Row → Except String (List Row)
  | [], _, _, pending => .ok pending
  | sf :: rest, cnt, scanIdx, pending =>
    let sr := sf.scanResults
    match eng.execErr cnt with
    | some e => .error ("insert scan failed: " ++ e)
    | none =>
      match eng.keyResult scanIdx with
      | .error e => .error ("get scan ID failed: " ++ e)
      | .ok key =>
        match writeVulns eng key sr.vulnerabilities (cnt + 1)
            (pending ++ [Row.scanRow repo filePath scanTime sr.scanID
              sr.timestamp key]) with
        | .error e => .error e
        | .ok (cnt2, pending2) =>
          writeScanFiles eng repo filePath scanTime rest cnt2 (scanIdx + 1)
            pending2

/-- `executeInTransaction` from the retrying handler: begin a
transaction, run the body, roll back (discarding every pending insert)
when the body fails, commit otherwise.  Returns the resulting store
state together with the error, if any. -/
def executeInTransaction (db : List Row) (beginErr : Option String)
    (body : Except String (List Row)) (commitErr : Option String) :
    List Row × Option String :=
  match beginErr with
  | some e => (db, some ("db transaction failed: " ++ e))
  | none =>
    match body with
    | .error e => (db, some e)
    | .ok pending =>
      match commitErr with
      | some e => (db, some ("commit failed: " ++ e))
      | none => (db ++ pending, none)

/-! ## Per-item pipeline and the retry loop -/

/-- The environment one attempt of the pipeline runs against: the result
of `FetchFileContent` (which already performed its own internal retries),
and the storage-engine outcomes for this attempt's transaction. -/
structure AttemptEnv where
  fetch : Except String RawContent
  beginErr : Option String
  eng : TxEngine
  commitErr : Option String
  scanTime : String

/-- `processFileWithRetry` from the retrying handler: fetch, parse,
then write inside a transaction.  Returns the resulting store state and
the error text, if any. -/
def processFileWithRetry (repo filePath : String) (env : AttemptEnv)
    (db : List Row) : List Row × Option String :=
  match env.fetch with
  | .error e => (db, some ("fetch failed: " ++ e))
  | .ok content =>
    match parseScanFiles content with
    | .error e => (db, some ("invalid JSON: " ++ e))
    | .ok scanFiles =>
      executeInTransaction db env.beginErr
        (writeScanFiles env.eng repo filePath env.scanTime scanFiles 0 0 [])
        env.commitErr

/-- `const maxRetries = 2` in `processFile`. -/
def maxRetries : Nat := 2

/-- `time.Duration(attempt) * 100 * time.Millisecond`: the base backoff
unit, in milliseconds. -/
def backoffUnitMs : Nat := 100

/-- `strings.Contains` on the text of an error. -/
def strContainsSub (s pat : String) : Bool :=
  s.data.tails.any fun t => pat.data.isPrefixOf t

/-- `isLockError` from the retrying handler: substring match on the whole
error text. -/
def isLockError (e : String) : Bool :=
  strContainsSub e "locked" || strContainsSub e "busy"

/-- `fmt`'s rendering of an error value that may be nil. -/
def errText : Option String → String
  | none => "<nil>"
  | some e => e

/-- Trace of one run of `processFile`: final store state, final outcome
(`none` = success), the sleeps performed (in ms, in order), and how many
calls to `processFileWithRetry` were made. -/
structure PipeResult where
  db : List Row
  outcome : Option String
  delaysMs : List Nat
  attemptsUsed : Nat

/-- The retry loop of `processFile`, one constructor case per loop
state: `fuel` counts the iterations left (`maxRetries - attempt`).
Before every iteration but the first, sleep `attempt * backoffUnitMs`.
A nil error returns success; a lock-classified error records it and
retries; any other error returns immediately.  An exhausted budget
returns `failed after <maxRetries> attempts: <last error>`. -/
def processFileAux (repo filePath : String) (envs : Nat → AttemptEnv) :
    Nat → Nat → List Row → Option String → PipeResult
  | 0, _, db, lastErr =>
    ⟨db, some ("failed after " ++ toString maxRetries ++ " attempts: "
      ++ errText lastErr), [], 0⟩
  | fuel + 1, attempt, db, _ =>
    let ds : List Nat := if 0 < attempt then [attempt * backoffUnitMs] else []
    match processFileWithRetry repo filePath (envs attempt) db with
    | (db2, none) => ⟨db2, none, ds, 1⟩
    | (db2, some err) =>
      if isLockError err then
        let r := processFileAux repo filePath envs fuel (attempt + 1) db2
          (some err)
        ⟨r.db, r.outcome, ds ++ r.delaysMs, r.attemptsUsed + 1⟩
      else ⟨db2, some err, ds, 1⟩

/-- `processFile` from the retrying handler.  `envs n` is the
environment (fetch result and storage outcomes) seen by attempt `n`. -/
def processFile (repo filePath : String) (envs : Nat → AttemptEnv)
    (db : List Row) : PipeResult :=
  processFileAux repo filePath envs maxRetries 0 db none

/-! ## The GitHub content fetcher (github/client.go) -/

/-- What one `http.Get` observes: a transport error, or a response with
a status code and a body-read outcome. -/
inductive HttpAttempt where
  | transportErr (msg : String)
  | response (statusCode : Nat) (readResult : Except String RawContent)

/-- The 2-attempt loop of `FetchFileContent`: a transport error, a
non-200 status, or a body-read error each set the error and move to the
next attempt; a read body is returned as-is. -/
def fetchAux (responses : Nat → HttpAttempt) :
    Nat → Nat → String → Except String RawContent
  | 0, _, lastErr => .error ("failed after 2 attempts: " ++ lastErr)
  | fuel + 1, attempt, _ =>
    match responses attempt with
    | .transportErr m => fetchAux responses fuel (attempt + 1) m
    | .response code r =>
      if code != 200 then
        fetchAux responses fuel (attempt + 1) ("HTTP status " ++ toString code)
      else
        match r with
        | .error m => fetchAux responses fuel (attempt + 1) m
        | .ok body => .ok body

/-- `FetchFileContent` from github/client.go, over the sequence of HTTP
outcomes for its attempts. -/
def FetchFileContent (responses : Nat → HttpAttempt) :
    Except String RawContent :=
  fetchAux responses 2 0 ""

/-! ## The scan endpoint -/

/-- The two response shapes `ScanHandler` can produce. -/
inductive ScanOut where
  | badRequest (msg : String)
  | okReport (resp : ScanResponse)
  deriving DecidableEq, Repr

/-- HTTP status code of a `ScanHandler` response. -/
def scanStatusOf : ScanOut → Nat
  | .badRequest _ => 400
  | .okReport _ => 200

/-- `ScanHandler` from handlers/scan.go: a body that fails to decode is
answered with 400 `Invalid request body`; otherwise every file is
processed and the aggregated report is returned with status 200.
`results` lists each goroutine's `(file, outcome)` pair in completion
order; theorems constrain it to cover `req.files` exactly. -/
def ScanHandler (body : Option ScanRequest)
    (results : List (String × Option String)) : ScanOut :=
  match body with
  | none => .badRequest "Invalid request body"
  | some _ => .okReport (scanReport results)

/-! ## The query endpoint (handlers/query.go) -/

structure QueryFilters where
  severity : String
  deriving DecidableEq, Repr

structure QueryRequest where
  filters : QueryFilters
  deriving DecidableEq, Repr

/-- The three response shapes `QueryHandler` can produce. -/
inductive QueryOut where
  | badRequest (msg : String)
  | serverError (msg : String)
  | okRows (rows : List Vulnerability)
  deriving DecidableEq, Repr

/-- HTTP status code of a `QueryHandler` response. -/
def queryStatusOf : QueryOut → Nat
  | .badRequest _ => 400
  | .serverError _ => 500
  | .okRows _ => 200

/-- A `QueryHandler` run: the response plus whether the database was
consulted at all. -/
structure QueryTrace where
  response : QueryOut
  dbQueried : Bool
  deriving DecidableEq, Repr

/-- `SELECT ... FROM vulnerabilities WHERE severity = ?`: SQLite TEXT
comparison is byte-wise (BINARY collation), i.e. exact case-sensitive
string equality. -/
def selectBySeverity (rows : List Vulnerability) (sev : String) :
    List Vulnerability :=
  rows.filter fun v => v.severity == sev

/-- `QueryHandler` from handlers/query.go.  `rows` is the vulnerability
table; `dbErr` the failure, if any, of the `Select` call.  A missing
(zero-value) or empty severity is rejected before any lookup. -/
def QueryHandler (body : Option QueryRequest) (rows : List Vulnerability)
    (dbErr : Option String) : QueryTrace :=
  match body with
  | none => ⟨.badRequest "Invalid request body", false⟩
  | some req =>
    if req.filters.severity == "" then
      ⟨.badRequest "Severity filter is required", false⟩
    else
      match dbErr with
      | some e => ⟨.serverError ("Query failed: " ++ e), true⟩
      | none => ⟨.okRows (selectBySeverity rows req.filters.severity), true⟩

/-! ## The semaphore-bounded worker pool

`ScanHandler` gates each goroutine on `sem = make(chan struct\x7b\x7d, 3)`:
a goroutine sends into `sem` before running `processFile` and receives
from it when finished, so a pipeline runs only while holding one of the
3 channel slots.  We model each spawned task as `idle` (spawned, waiting
to acquire a slot), `running` (slot held, pipeline executing), or `done`
(slot released), with the channel's capacity as the admission guard. -/

/-- Capacity of the semaphore channel in `ScanHandler`. -/
def poolSize : Nat := 3

inductive TaskState where
  | idle
  | running
  | done
  deriving DecidableEq, Repr

/-- Whether a task currently holds a pool slot. -/
def TaskState.isRunning : TaskState → Bool
  | .running => true
  | _ => false

/-- Number of tasks currently holding a pool slot. -/
def runningCount (s : List TaskState) : Nat :=
  s.countP fun t => t.isRunning

/-- One scheduler step: an idle task acquires a slot (possible only while
fewer than `poolSize` slots are held — the semaphore send blocks
otherwise), or a running task finishes its pipeline and releases its
slot.  Slot acquisition precedes the fetch and release follows the whole
fetch/parse/write sequence, exactly as in the goroutine body. -/
inductive PoolStep : List TaskState → List TaskState → Prop where
  | acquire (l r : List TaskState) :
      runningCount (l ++ TaskState.idle :: r) < poolSize →
      PoolStep (l ++ TaskState.idle :: r) (l ++ TaskState.running :: r)
  | finish (l r : List TaskState) :
      PoolStep (l ++ TaskState.running :: r) (l ++ TaskState.done :: r)

/-- States reachable by a batch of `n` spawned tasks: all start idle and
evolve by `PoolStep`. -/
inductive PoolReachable : List TaskState → Prop where
  | init (n : Nat) : PoolReachable (List.replicate n TaskState.idle)
  | step {s t : List TaskState} :
      PoolReachable s → PoolStep s t → PoolReachable t

/-! ## Concrete environments used to evaluate the model -/

/-- A storage engine whose every `Exec` fails with SQLite lock
contention. -/
def lockedEngine : TxEngine :=
  ⟨fun _ => some "database is locked", fun _ => .ok 0⟩

/-- A storage engine whose every call succeeds; generated keys count up
from 1. -/
def okEngine : TxEngine :=
  ⟨fun _ => none, fun k => .ok (k + 1)⟩

/-- The empty-findings payload of the repository's own test suite:
the bytes `\x7b"scanResults":\x7b\x7d\x7d`, i.e. a top-level JSON object
whose `scanResults` member is an empty object. -/
def emptyFindingsPayload : RawContent :=
  .json (.obj [("scanResults", .obj [])])

/-- An attempt in which the fetch succeeds with the empty-findings
payload and storage would accept every insert. -/
def emptyFindingsEnv : AttemptEnv :=
  ⟨.ok emptyFindingsPayload, none, okEngine, none, "t"⟩

/-- Both HTTP attempts of the fetcher observe status 404. -/
def notFoundResponses : Nat → HttpAttempt :=
  fun _ => .response 404 (.ok (.json .null))

/-- An attempt whose fetch step is `FetchFileContent` against the 404
responses. -/
def notFoundEnv : AttemptEnv :=
  ⟨FetchFileContent notFoundResponses, none, okEngine, none, "t"⟩

/-- An attempt whose fetch fails with a transport error quoting the
fetched URL — here a repository named `busy`, so the error text contains
the substring `busy`. -/
def busyFetchEnv : AttemptEnv :=
  ⟨.error "Get \"https://raw.githubusercontent.com/org/busy/main/a.json\": connection refused",
   none, okEngine, none, "t"⟩

/-- An attempt whose fetch fails with an error mentioning neither
`locked` nor `busy`. -/
def nonLockFailEnv : AttemptEnv :=
  ⟨.error "HTTP status 500", none, okEngine, none, "t"⟩

/-- An attempt that fetches and parses one scan record but whose first
insert hits lock contention. -/
def lockedWriteEnv : AttemptEnv :=
  ⟨.ok (.json (.arr [.obj []])), none, lockedEngine, none, "t"⟩

/-! ## Helper lemmas -/

theorem collect_length (results : List (String × Option String)) :
    (collectSuccess results).length + (collectFailed results).length
      = results.length := by
  induction results with
  | nil => rfl
  | cons r rest ih =>
    cases h : r.2 <;>
      simp only [collectSuccess, collectFailed, List.filterMap_cons, h,
        List.length_cons] at * <;> omega

theorem collect_count (results : List (String × Option String)) (name : String) :
    (collectSuccess results).count name
      + ((collectFailed results).map FileError.file).count name
      = (results.map Prod.fst).count name := by
  induction results with
  | nil => rfl
  | cons r rest ih =>
    cases h : r.2 <;>
      simp only [collectSuccess, collectFailed, List.filterMap_cons, h,
        List.map_cons, List.count_cons] at * <;> omega

theorem collectSuccess_filter (x : String)
    (rs : List (String × Option String)) :
    (collectSuccess rs).filter (fun n => n == x)
      = collectSuccess (rs.filter fun r => r.1 == x) := by
  induction rs with
  | nil => rfl
  | cons r rest ih =>
    cases h : r.2 <;> by_cases hx : r.1 == x <;>
      simp_all [collectSuccess, List.filterMap_cons, List.filter_cons]

theorem collectFailed_filter (x : String)
    (rs : List (String × Option String)) :
    (collectFailed rs).filter (fun fe => fe.file == x)
      = collectFailed (rs.filter fun r => r.1 == x) := by
  induction rs with
  | nil => rfl
  | cons r rest ih =>
    cases h : r.2 <;> by_cases hx : r.1 == x <;>
      simp_all [collectFailed, List.filterMap_cons, List.filter_cons]

/-- A failing pipeline attempt leaves the store exactly as it found it:
every error path of `processFileWithRetry` (fetch, parse, begin, insert,
commit) returns the incoming `db`. -/
theorem processFileWithRetry_error_db (repo filePath : String)
    (env : AttemptEnv) (db outDb : List Row) (err : String)
    (h : processFileWithRetry repo filePath env db = (outDb, some err)) :
    outDb = db := by
  unfold processFileWithRetry executeInTransaction at h
  repeat' split at h
  all_goals
    (injection h with h1 h2; first | exact h1.symm | exact Option.noConfusion h2)

theorem runningCount_parts (l r : List TaskState) (t : TaskState) :
    runningCount (l ++ t :: r)
      = runningCount l + runningCount r + (if t.isRunning then 1 else 0) := by
  simp [runningCount, List.countP_append, List.countP_cons]
  omega

theorem runningCount_replicate_idle (n : Nat) :
    runningCount (List.replicate n TaskState.idle) = 0 := by
  induction n with
  | zero => rfl
  | succ m ih =>
    simp [List.replicate_succ, runningCount, List.countP_cons,
      TaskState.isRunning]

/-! ## Claims -/

/-- C1: for every batch submitted to the scan handler, the returned
report partitions the input item names: `|success| + |failed| = |items|`,
every input item name occurs in the two lists exactly as often as in the
input, and a name submitted once appears in exactly one of the two lists
exactly once. -/
theorem c1_report_partitions_input (files : List String)
    (results : List (String × Option String))
    (hperm : (results.map Prod.fst).Perm files) :
    (scanReport results).success.length + (scanReport results).failed.length
        = files.length ∧
    (∀ name : String,
      (scanReport results).success.count name
          + ((scanReport results).failed.map FileError.file).count name
        = files.count name) ∧
    (∀ name : String, files.count name = 1 →
      ((scanReport results).success.count name = 1 ∧
          ((scanReport results).failed.map FileError.file).count name = 0) ∨
      ((scanReport results).success.count name = 0 ∧
          ((scanReport results).failed.map FileError.file).count name = 1)) := by
  have hcount : ∀ name : String,
      (scanReport results).success.count name
          + ((scanReport results).failed.map FileError.file).count name
        = files.count name := by
    intro name
    have := collect_count results name
    have hp := hperm.count_eq name
    simp only [scanReport] at *
    omega
  refine ⟨?_, hcount, ?_⟩
  · have := collect_length results
    have hlen := hperm.length_eq
    simp only [List.length_map] at hlen
    simp only [scanReport] at *
    omega
  · intro name hone
    have := hcount name
    omega

/-- C1 witness: a two-item batch with one success and one failure,
completing out of order. -/
theorem c1_report_partitions_input_witness :
    (scanReport [("b", some "boom"), ("a", none)]).success.length
        + (scanReport [("b", some "boom"), ("a", none)]).failed.length
      = (["a", "b"] : List String).length :=
  (c1_report_partitions_input ["a", "b"] [("b", some "boom"), ("a", none)]
    (by decide)).1

/-- C2: if any insert inside the per-item transactional unit fails, the
bracket rolls back and the store is observed unchanged — zero rows from
that attempt survive — and the error is returned; more generally, every
failing call of `processFileWithRetry` leaves the store exactly as it
found it. -/
theorem c2_failed_write_rolls_back (db : List Row)
    (repo filePath scanTime : String) (files : List ScanFile)
    (eng : TxEngine) (commitErr : Option String) (e : String)
    (hfail : writeScanFiles eng repo filePath scanTime files 0 0 []
      = .error e) :
    executeInTransaction db none
        (writeScanFiles eng repo filePath scanTime files 0 0 []) commitErr
      = (db, some e) ∧
    (∀ (env : AttemptEnv) (outDb : List Row) (err : String),
      processFileWithRetry repo filePath env db = (outDb, some err) →
      outDb = db) := by
  constructor
  · simp [executeInTransaction, hfail]
  · intro env outDb err h
    exact processFileWithRetry_error_db repo filePath env db outDb err h

/-- C2 witness: a one-record write whose first insert hits lock
contention leaves an empty store empty. -/
theorem c2_failed_write_rolls_back_witness :
    executeInTransaction [] none
        (writeScanFiles lockedEngine "R" "a.json" "t" [ScanFile.zero] 0 0 [])
        none
      = ([], some "insert scan failed: database is locked") :=
  (c2_failed_write_rolls_back [] "R" "a.json" "t" [ScanFile.zero]
    lockedEngine none "insert scan failed: database is locked" rfl).1

/-- C5: every state reachable by a batch of spawned tasks has at most
`poolSize = 3` pipelines holding a pool slot, however many tasks were
spawned: an idle task can only start running while fewer than 3 slots
are held, and the slot is held from before the fetch until the pipeline
finishes. -/
theorem c5_pool_bounded (s : List TaskState) (h : PoolReachable s) :
    runningCount s ≤ poolSize := by
  induction h with
  | init n => simp [runningCount_replicate_idle, poolSize]
  | step hs hstep ih =>
    cases hstep with
    | acquire l r hlt =>
      have h1 := runningCount_parts l r TaskState.idle
      have h2 := runningCount_parts l r TaskState.running
      simp [TaskState.isRunning] at h1 h2
      rw [h1] at hlt
      omega
    | finish l r =>
      have h1 := runningCount_parts l r TaskState.running
      have h2 := runningCount_parts l r TaskState.done
      simp [TaskState.isRunning] at h1 h2
      rw [h1] at ih
      omega

/-- C5 witness: two spawned tasks, one of which has acquired a slot. -/
theorem c5_pool_bounded_witness :
    runningCount [TaskState.running, TaskState.idle] ≤ poolSize :=
  c5_pool_bounded _
    (PoolReachable.step (PoolReachable.init 2)
      (PoolStep.acquire [] [TaskState.idle] (by decide)))

/-- C6: evaluation of the code at the payload of the claim.  The raw
content consisting exactly of a top-level JSON object with an empty
`scanResults` member does NOT parse: `json.Unmarshal` into the slice
type `[]models.ScanFile` rejects a top-level object, so the item fails
with an `invalid JSON` outcome (zero rows are indeed inserted, but
because nothing is ever written, not because an empty findings list is
accepted).  This contradicts the claim (and the repository's own test
suite, which expects this payload to succeed). -/
theorem c6_empty_payload_is_rejected :
    parseScanFiles emptyFindingsPayload
      = .error "json: cannot unmarshal object into Go value of type []models.ScanFile" ∧
    processFileWithRetry "R" "a.json" emptyFindingsEnv []
      = ([], some "invalid JSON: json: cannot unmarshal object into Go value of type []models.ScanFile") ∧
    (processFile "R" "a.json" (fun _ => emptyFindingsEnv) []).db = [] ∧
    (processFile "R" "a.json" (fun _ => emptyFindingsEnv) []).outcome
      = some "invalid JSON: json: cannot unmarshal object into Go value of type []models.ScanFile" :=
  ⟨rfl, rfl, rfl, rfl⟩

/-- C7: a batch with the single item `a.json` whose fetch observes HTTP
status 404 on both attempts yields a report with an empty success list
and exactly one failure entry carrying the error text
`fetch failed: failed after 2 attempts: HTTP status 404`. -/
theorem c7_not_found_scenario :
    FetchFileContent notFoundResponses
      = .error "failed after 2 attempts: HTTP status 404" ∧
    (processFile "R" "a.json" (fun _ => notFoundEnv) []).outcome
      = some "fetch failed: failed after 2 attempts: HTTP status 404" ∧
    (processFile "R" "a.json" (fun _ => notFoundEnv) []).attemptsUsed = 1 ∧
    ScanHandler (some ⟨"R", ["a.json"]⟩)
        [("a.json",
          (processFile "R" "a.json" (fun _ => notFoundEnv) []).outcome)]
      = .okReport ⟨[], [⟨"a.json",
          "fetch failed: failed after 2 attempts: HTTP status 404"⟩]⟩ :=
  ⟨rfl, rfl, rfl, rfl⟩

/-- C9: for every severity value, the read-path query returns exactly
the stored rows whose severity equals the supplied value under exact,
case-sensitive string comparison, and an empty result set is still a
200 response carrying the (empty) row list. -/
theorem c9_query_by_severity (rows : List Vulnerability) (sev : String)
    (h : sev ≠ "") :
    QueryHandler (some ⟨⟨sev⟩⟩) rows none
        = ⟨.okRows (selectBySeverity rows sev), true⟩ ∧
    (∀ v : Vulnerability,
      v ∈ selectBySeverity rows sev ↔ v ∈ rows ∧ v.severity = sev) ∧
    queryStatusOf (QueryHandler (some ⟨⟨sev⟩⟩) rows none).response = 200 := by
  have hbeq : (sev == "") = false := by
    simpa using h
  refine ⟨?_, ?_, ?_⟩
  · simp [QueryHandler, hbeq]
  · intro v
    simp [selectBySeverity, List.mem_filter]
  · simp [QueryHandler, hbeq, queryStatusOf]

/-- C9 witness: querying an empty table for `HIGH` returns an empty,
non-error 200 response. -/
theorem c9_query_by_severity_witness :
    QueryHandler (some ⟨⟨"HIGH"⟩⟩) [] none
      = ⟨.okRows (selectBySeverity [] "HIGH"), true⟩ :=
  (c9_query_by_severity [] "HIGH" (by decide)).1

/-- C10: a query whose severity filter decodes to the empty string
(absent or explicitly empty) is answered with HTTP 400
`Severity filter is required`, and the database is never consulted —
for any table contents and any would-be lookup outcome. -/
theorem c10_missing_severity_rejected (rows : List Vulnerability)
    (dbErr : Option String) :
    QueryHandler (some ⟨⟨""⟩⟩) rows dbErr
        = ⟨.badRequest "Severity filter is required", false⟩ ∧
    queryStatusOf (QueryHandler (some ⟨⟨""⟩⟩) rows dbErr).response = 400 :=
  ⟨rfl, rfl⟩

/-- C3: the per-item processor calls `processFileWithRetry` at most
`maxRetries = 2` times; the sleeps it performs are exactly
`k * backoffUnitMs` before retry attempt `k` (so one base unit before
the single possible retry); and when the attempt budget is exhausted —
both attempts failed with lock-classified errors — the outcome is the
FAILED message carrying the attempt count and the last observed error. -/
theorem c3_retry_policy (repo filePath : String) (envs : Nat → AttemptEnv)
    (db : List Row) :
    (processFile repo filePath envs db).attemptsUsed ≤ maxRetries ∧
    (processFile repo filePath envs db).delaysMs
      = (List.range' 1 ((processFile repo filePath envs db).attemptsUsed - 1)).map
          (· * backoffUnitMs) ∧
    (∀ e0 e1 : String,
      (processFileWithRetry repo filePath (envs 0) db).2 = some e0 →
      isLockError e0 = true →
      (processFileWithRetry repo filePath (envs 1) db).2 = some e1 →
      isLockError e1 = true →
      (processFile repo filePath envs db).outcome
          = some ("failed after " ++ toString maxRetries ++ " attempts: " ++ e1)
        ∧ (processFile repo filePath envs db).attemptsUsed = maxRetries) := by
  rcases h0 : processFileWithRetry repo filePath (envs 0) db with ⟨db0, o0⟩
  rcases o0 with _ | e0
  · have hpf : processFile repo filePath envs db = ⟨db0, none, [], 1⟩ := by
      simp [processFile, processFileAux, maxRetries, h0]
    rw [hpf]
    refine ⟨by simp [maxRetries], by simp, ?_⟩
    intro e0 e1 h0' _ _ _
    simp at h0'
  · have hdb0 : db0 = db := processFileWithRetry_error_db _ _ _ _ _ _ h0
    subst db0
    by_cases hl0 : isLockError e0
    · rcases h1 : processFileWithRetry repo filePath (envs 1) db with ⟨db1, o1⟩
      rcases o1 with _ | e1
      · have hpf : processFile repo filePath envs db
            = ⟨db1, none, [backoffUnitMs], 2⟩ := by
          simp [processFile, processFileAux, maxRetries, h0, h1, hl0]
        rw [hpf]
        refine ⟨by simp [maxRetries], by simp [List.range'], ?_⟩
        intro e0' e1' _ _ h1' _
        simp at h1'
      · by_cases hl1 : isLockError e1
        · have hpf : processFile repo filePath envs db
              = ⟨db1, some ("failed after " ++ toString maxRetries
                  ++ " attempts: " ++ e1), [backoffUnitMs], 2⟩ := by
            simp [processFile, processFileAux, maxRetries, h0, h1, hl0, hl1,
              errText]
          rw [hpf]
          refine ⟨by simp [maxRetries], by simp [List.range'], ?_⟩
          intro e0' e1' _ _ h1' _
          simp at h1'
          subst h1'
          exact ⟨rfl, by simp [maxRetries]⟩
        · have hpf : processFile repo filePath envs db
              = ⟨db1, some e1, [backoffUnitMs], 2⟩ := by
            simp [processFile, processFileAux, maxRetries, h0, h1, hl0, hl1]
          rw [hpf]
          refine ⟨by simp [maxRetries], by simp [List.range'], ?_⟩
          intro e0' e1' _ _ h1' hl1'
          simp at h1'
          subst h1'
          exact absurd hl1' (by simp [hl1])
    · have hpf : processFile repo filePath envs db = ⟨db, some e0, [], 1⟩ := by
        simp [processFile, processFileAux, maxRetries, h0, hl0]
      rw [hpf]
      refine ⟨by simp [maxRetries], by simp, ?_⟩
      intro e0' e1' h0' hl0' _ _
      simp at h0'
      subst h0'
      exact absurd hl0' (by simp [hl0])

/-- C3 witness: both attempts hit lock contention on the first insert;
the item fails after 2 attempts carrying the last error. -/
theorem c3_retry_policy_witness :
    (processFile "R" "a.json" (fun _ => lockedWriteEnv) []).outcome
        = some ("failed after " ++ toString maxRetries ++ " attempts: "
            ++ "insert scan failed: database is locked")
      ∧ (processFile "R" "a.json" (fun _ => lockedWriteEnv) []).attemptsUsed
        = maxRetries :=
  (c3_retry_policy "R" "a.json" (fun _ => lockedWriteEnv) []).2.2
    "insert scan failed: database is locked"
    "insert scan failed: database is locked" rfl rfl rfl rfl

/-- C4 counterexample: the claim says a fetch error terminates the item
immediately with no retry, but classification is a substring match on
the whole error text.  A fetch transport error quoting a URL whose
repository name contains `busy` (request-controlled input) is classified
transient by `isLockError`, and the pipeline retries: two attempts and a
backoff sleep are performed for a pure fetch-stage failure. -/
theorem c4_fetch_error_retried_counterexample :
    (processFileWithRetry "R" "a.json" busyFetchEnv []).2
        = some "fetch failed: Get \"https://raw.githubusercontent.com/org/busy/main/a.json\": connection refused" ∧
    (processFile "R" "a.json" (fun _ => busyFetchEnv) []).attemptsUsed = 2 ∧
    (processFile "R" "a.json" (fun _ => busyFetchEnv) []).delaysMs
      = [backoffUnitMs] :=
  ⟨rfl, rfl, rfl⟩

/-- C4 (amended): a failure of an attempt is retried exactly when its
full error text contains `locked` or `busy` (the `isLockError`
classification), regardless of the stage that produced it: an error
whose text contains neither substring — in particular the usual fetch,
parse and non-transient write errors — terminates the item immediately
after the first attempt with no retry and no backoff sleep, while an
error whose text matches is retried. -/
theorem c4_retry_iff_lock_text (repo filePath : String)
    (envs : Nat → AttemptEnv) (db : List Row) (e : String)
    (h0 : (processFileWithRetry repo filePath (envs 0) db).2 = some e) :
    (isLockError e = false →
      processFile repo filePath envs db
        = ⟨(processFileWithRetry repo filePath (envs 0) db).1, some e, [], 1⟩) ∧
    (isLockError e = true →
      (processFile repo filePath envs db).attemptsUsed = 2) := by
  rcases hp : processFileWithRetry repo filePath (envs 0) db with ⟨db0, o0⟩
  rw [hp] at h0
  rcases o0 with _ | e0
  · simp at h0
  · simp at h0
    subst h0
    constructor
    · intro hl
      simp [processFile, processFileAux, maxRetries, hp, hl]
    · intro hl
      have hdb0 : db0 = db := processFileWithRetry_error_db _ _ _ _ _ _ hp
      subst db0
      rcases h1 : processFileWithRetry repo filePath (envs 1) db with ⟨db1, o1⟩
      rcases o1 with _ | e1
      · simp [processFile, processFileAux, maxRetries, hp, h1, hl]
      · by_cases hl1 : isLockError e1 <;>
          simp [processFile, processFileAux, maxRetries, hp, h1, hl, hl1]

/-- C4 witness: a fetch error mentioning neither `locked` nor `busy`
terminates the item after one attempt with no sleep. -/
theorem c4_retry_iff_lock_text_witness :
    processFile "R" "a.json" (fun _ => nonLockFailEnv) []
      = ⟨[], some "fetch failed: HTTP status 500", [], 1⟩ :=
  (c4_retry_iff_lock_text "R" "a.json" (fun _ => nonLockFailEnv) []
    "fetch failed: HTTP status 500" rfl).1 rfl

/-- C8: every well-formed batch request is answered with a 200 report
aggregating per-item outcomes; the entries a given item name contributes
to the report are a function of that item's own outcomes alone, so one
item's failure never alters another item's entries; and only a body
that fails to decode yields the request-level 400 error. -/
theorem c8_per_item_isolation (req : ScanRequest)
    (results : List (String × Option String)) :
    scanStatusOf (ScanHandler (some req) results) = 200 ∧
    ScanHandler (some req) results = .okReport (scanReport results) ∧
    (∀ (x : String) (results2 : List (String × Option String)),
      results.filter (fun r => r.1 == x)
          = results2.filter (fun r => r.1 == x) →
      (scanReport results).success.filter (fun n => n == x)
          = (scanReport results2).success.filter (fun n => n == x) ∧
      (scanReport results).failed.filter (fun fe => fe.file == x)
          = (scanReport results2).failed.filter (fun fe => fe.file == x)) ∧
    ScanHandler none results = .badRequest "Invalid request body" := by
  refine ⟨rfl, rfl, ?_, rfl⟩
  intro x results2 hagree
  constructor
  · show (collectSuccess results).filter (fun n => n == x)
        = (collectSuccess results2).filter (fun n => n == x)
    rw [collectSuccess_filter, collectSuccess_filter, hagree]
  · show (collectFailed results).filter (fun fe => fe.file == x)
        = (collectFailed results2).filter (fun fe => fe.file == x)
    rw [collectFailed_filter, collectFailed_filter, hagree]

/-- C8 witness: a mixed two-item batch gets a 200 report, and the
entries of item `a` are unchanged when the other item's outcome is
dropped. -/
theorem c8_per_item_isolation_witness :
    scanStatusOf (ScanHandler (some ⟨"R", ["a", "b"]⟩)
        [("a", some "boom"), ("b", none)]) = 200 ∧
    (scanReport [("a", some "boom"), ("b", none)]).success.filter
        (fun n => n == "a")
      = (scanReport [("a", some "boom")]).success.filter (fun n => n == "a") :=
  ⟨(c8_per_item_isolation ⟨"R", ["a", "b"]⟩
      [("a", some "boom"), ("b", none)]).1,
    ((c8_per_item_isolation ⟨"R", ["a", "b"]⟩
        [("a", some "boom"), ("b", none)]).2.2.1 "a" [("a", some "boom")]
      (by decide)).1⟩
